import Mathlib

/-!
Shallow embedding of the 1C exchange cloud function (class `Exchange1c` in
`src/First task/first.ts`): the session store, authentication, session
validation, file routing and the request dispatcher, together with theorems
checking the specification's claims about them.

External effects are made explicit:
* the Firestore sessions collection is a `Store` value threaded through the
  operations;
* Cloud Storage uploads are returned as `StorageWrite` records;
* the current time, the two fresh `uuidv4()` draws and the luxon-formatted
  current time are parameters (`Env`).

Times are natural numbers (epoch seconds); the source compares JS `Date`
values, which compare by their numeric epoch value, so `≤` on `Nat` models
the source's `<=` on dates.
-/

set_option autoImplicit false

namespace Exchange1c

/-- Basic auth credentials (interface `BasicCredentials`). -/
structure BasicCredentials where
  username : String
  password : String
deriving DecidableEq

/-- 1C exchange settings (interface `Settings`). -/
structure Settings where
  username : String
  password : String
  zip : Bool
  fileSizeLimit : Nat
  sessionDurationSeconds : Nat
  sessionIdCookieName : String
  csrfProtection : Bool
  csrfTokenName : String
  sessionsStoragePath : String
deriving DecidableEq

/-- Session info extracted from the incoming request (interface
`RequestSessionInfo`). -/
structure RequestSessionInfo where
  sessionId : String
  csrfToken : String
deriving DecidableEq

/-- An exchange session (interface `ExchangeSession`); `expirationTimestamp`
in epoch seconds. -/
structure ExchangeSession where
  sessionId : String
  csrfToken : String
  expirationTimestamp : Nat
deriving DecidableEq

/-- A session document as stored in Firestore (interface
`ExchangeSessionStoredInFirestore`); `expirationTimestamp = none` models a
document whose timestamp field is missing, the case caught by the
`!storedSession.expirationTimestamp` check in `loadSession`. -/
structure StoredSession where
  sessionId : String
  csrfToken : String
  expirationTimestamp : Option Nat
deriving DecidableEq

/-- The Firestore sessions collection: documents keyed by session id. -/
abbrev Store := List (String × StoredSession)

/-- Firestore `doc.ref.delete()` on the sessions collection. -/
def storeDelete (store : Store) (key : String) : Store :=
  store.filter (fun kv => !(kv.fst == key))

/-- Firestore `collection(path).doc(id).set(value)`: an upsert keyed by the
document id. -/
def storeSet (store : Store) (key : String) (value : StoredSession) : Store :=
  (key, value) :: storeDelete store key

/-- Method `result(...lines)`: the lines joined into one string with the
newline symbol (`lines.join('\n')`). -/
def result : List String → String
  | [] => ""
  | [line] => line
  | line :: rest => line ++ "\n" ++ result rest

/-- Method `failureResult(message)`: `result('failure', message ?? '')`. -/
def failureResult (message : Option String) : String :=
  result ["failure", message.getD ""]

/-- The per-request effect inputs: the two `uuidv4()` draws of `checkauth`,
the current time `DateTime.utc()` in epoch seconds, and
`DateTime.utc().toFormat('yyyy-MM-dd_HH-mm-ss-SSSZZZ')`. -/
structure Env where
  newSessionId : String
  newCsrfToken : String
  now : Nat
  nowFormatted : String
deriving DecidableEq

/-- The class field `exchangeSessionDurationSeconds`, hard-coded to 3600. -/
def exchangeSessionDurationSeconds : Nat := 3600

/-- Method `loadSession(sessionId)`: the loaded session (if any) together
with the sessions collection after the lookup (an expired or timestamp-less
document is deleted by the lookup itself). -/
def loadSession (store : Store) (sessionId : String) (now : Nat) :
    Option ExchangeSession × Store :=
  if sessionId = "" then
    (none, store)
  else
    match store.lookup sessionId with
    | none => (none, store)
    | some stored =>
      match stored.expirationTimestamp with
      | none => (none, storeDelete store sessionId)
      | some e =>
        if e ≤ now then
          (none, storeDelete store sessionId)
        else
          (some { sessionId := stored.sessionId, csrfToken := stored.csrfToken,
                  expirationTimestamp := e }, store)

/-- The Firestore query filter of `deleteExpiredSessions`:
`where('expirationTimestamp', '<=', now)`. A document without the field
never matches a Firestore range filter. -/
def matchesExpirySweep (s : StoredSession) (now : Nat) : Bool :=
  match s.expirationTimestamp with
  | some e => e ≤ now
  | none => false

/-- Method `deleteExpiredSessions()`: deletes every matching document. -/
def deleteExpiredSessions (store : Store) (now : Nat) : Store :=
  store.filter (fun kv => !(matchesExpirySweep kv.snd now))

/-- Method `saveSession(session)`. -/
def saveSession (store : Store) (session : ExchangeSession) : Store :=
  storeSet store session.sessionId
    { sessionId := session.sessionId, csrfToken := session.csrfToken,
      expirationTimestamp := some session.expirationTimestamp }

/-- Result record of `validateRequestSessionInfo`. -/
structure ValidationResult where
  success : Bool
  error : Option String
deriving DecidableEq

/-- Method `validateRequestSessionInfo(requestSessionInfo)`; also returns
the sessions collection after the embedded `loadSession` call (whose lazy
delete of an expired document persists whatever the outcome). -/
def validateRequestSessionInfo (settings : Settings) (store : Store)
    (info : RequestSessionInfo) (now : Nat) : ValidationResult × Store :=
  let loaded := loadSession store info.sessionId now
  match loaded.fst with
  | none =>
    ({ success := false,
       error := some "No active session found. Use \x27mode=checkauth\x27 to start a new session." },
     loaded.snd)
  | some stored =>
    if settings.csrfProtection = true ∧ info.csrfToken ≠ stored.csrfToken then
      ({ success := false, error := some "Invalid CSRF token." }, loaded.snd)
    else
      ({ success := true, error := none }, loaded.snd)

/-- Method `checkauth(credentials)` (step A): the protocol response together
with the sessions collection after the expiry sweep and the save of the
fresh session (the two operations of the awaited `Promise.all`). -/
def checkauth (settings : Settings) (store : Store)
    (credentials : BasicCredentials) (env : Env) : String × Store :=
  if credentials.username ≠ settings.username ∨ credentials.password ≠ settings.password then
    (failureResult (some "Unauthorized"), store)
  else
    (result ["success", settings.sessionIdCookieName, env.newSessionId,
             settings.csrfTokenName ++ "=" ++ env.newCsrfToken,
             "timestamp=" ++ toString env.now],
     saveSession (deleteExpiredSessions store env.now)
       { sessionId := env.newSessionId, csrfToken := env.newCsrfToken,
         expirationTimestamp := env.now + exchangeSessionDurationSeconds })

/-- Method `init()` (step B). -/
def init (settings : Settings) : String :=
  result ["zip=" ++ (if settings.zip then "yes" else "no"),
          "file_limit=" ++ toString settings.fileSizeLimit]

/-- JS `String.prototype.startsWith(prefixString)`: the character sequence
of the second string is an initial segment of the first one (written as a
structurally recursive list check so that the kernel can evaluate it). -/
def jsStartsWith (s p : String) : Bool :=
  p.toList.isPrefixOf s.toList

/-- The scan of Node `posix.dirname`: walking the path from its end
(positions `length - 1` down to `1`), the position of the last separator
that has a non-separator after it. The first argument is the reversed
character list, the second the position of its head. -/
def findDirEnd : List Char → Nat → Bool → Option Nat
  | [], _, _ => none
  | c :: rest, i, matchedSlash =>
    if i = 0 then none
    else if c = '/' then
      if matchedSlash then findDirEnd rest (i - 1) true else some i
    else
      findDirEnd rest (i - 1) false

/-- Node `posix.dirname`, as called by the file steps on the filename. -/
def posixDirname (p : String) : String :=
  if p = "" then "."
  else
    match findDirEnd p.toList.reverse (p.toList.length - 1) true with
    | none => if jsStartsWith p "/" then "/" else "."
    | some e =>
      if jsStartsWith p "/" = true ∧ e = 1 then "//"
      else String.mk (p.toList.take e)

/-- Node `posix.basename` (one-argument form), as called by the file steps
on the filename: the last path component, ignoring trailing separators. -/
def posixBasename (p : String) : String :=
  String.mk
    (((p.toList.reverse.dropWhile (fun c => c == '/')).takeWhile
      (fun c => !(c == '/'))).reverse)

/-- One Cloud Storage upload performed by `saveToStorage`, recorded with the
four routing arguments and the uploaded bytes. -/
structure StorageWrite where
  bucketName : String
  folder : String
  timestamp : String
  fileName : String
  data : List Nat
deriving DecidableEq

/-- The object name built by `saveToStorage` before it is joined with the
folder: `timestamp ? timestamp + '_' + fileName : fileName` (an empty string
is falsy in JS). -/
def saveKey (timestamp fileName : String) : String :=
  if timestamp = "" then fileName else timestamp ++ "_" ++ fileName

/-- Method `file(filename, requestBody)` (step C, catalog): the response and
the upload performed, if any. `nowFormatted` stands for the
`DateTime.utc().toFormat('yyyy-MM-dd_HH-mm-ss-SSSZZZ')` call in the
non-`import_files` branch. -/
def file (filename : String) (requestBody : Option (List Nat))
    (nowFormatted : String) : String × Option StorageWrite :=
  if filename = "" then
    (failureResult (some "Filename is empty."), none)
  else
    match requestBody with
    | none => (failureResult (some "Request body is undefined"), none)
    | some body =>
      if jsStartsWith filename "import_files" then
        ("success",
         some { bucketName := "1c-exchange-files", folder := posixDirname filename,
                timestamp := "", fileName := posixBasename filename, data := body })
      else
        ("success",
         some { bucketName := "1c-exchange-catalog", folder := "",
                timestamp := nowFormatted, fileName := filename, data := body })

/-- Method `fileReport(filename, requestBody)` (step C, report). -/
def fileReport (filename : String) (requestBody : Option (List Nat)) :
    String × Option StorageWrite :=
  if filename = "" then
    (failureResult (some "Filename is empty."), none)
  else
    match requestBody with
    | none => (failureResult (some "Request body is undefined"), none)
    | some body =>
      if jsStartsWith filename "import_files" then
        ("success",
         some { bucketName := "1c-exchange-report", folder := posixDirname filename,
                timestamp := "", fileName := posixBasename filename, data := body })
      else
        ("success",
         some { bucketName := "1c-exchange-report", folder := "",
                timestamp := "", fileName := filename, data := body })

/-- Step D of the source (its method is named after the Lean keyword for
module inclusion, so it is renamed here): acknowledges a non-empty filename. -/
def stepImport (filename : String) : String :=
  if filename = "" then failureResult (some "Filename is empty.") else "success"

/-- The parts of the Express request the dispatcher reads; `none` models an
absent query parameter, header or body. `cookieSessionId` is the value of
the cookie named `settings.sessionIdCookieName` after cookie parsing. -/
structure Request where
  queryType : Option String
  queryMode : Option String
  queryFilename : Option String
  querySessid : Option String
  cookieSessionId : Option String
  authName : Option String
  authPass : Option String
  rawBody : Option (List Nat)
deriving DecidableEq

/-- Method `getRequestSessionInfo(request)`: session id from the configured
cookie (empty when the header or the cookie is absent), csrf token from the
`sessid` query parameter (empty when absent or itself empty, by JS
truthiness). -/
def getRequestSessionInfo (req : Request) : RequestSessionInfo :=
  { sessionId := req.cookieSessionId.getD "",
    csrfToken :=
      match req.querySessid with
      | some s => if s = "" then "" else s
      | none => "" }

/-- Method `getBasicCredentials(request)`: `result?.name ?? ''` and
`result?.pass ?? ''`. -/
def getBasicCredentials (req : Request) : BasicCredentials :=
  { username := req.authName.getD "", password := req.authPass.getD "" }

/-- JS template-string rendering of a possibly-absent query parameter. -/
def jsStr : Option String → String
  | some s => s
  | none => "undefined"

/-- Method `main(parameters)`: the dispatcher. Returns the textual response,
the sessions collection after the request, and the Cloud Storage upload
performed, if any. -/
def main (settings : Settings) (store : Store) (env : Env) (req : Request) :
    String × Store × Option StorageWrite :=
  if req.queryType ≠ some "catalog" ∧ req.queryType ≠ some "report" then
    (failureResult (some ("Parameter type \"" ++ jsStr req.queryType ++
       "\" is not supported. Supported parameters: catalog, report")), store, none)
  else if req.queryMode = some "checkauth" then
    ((checkauth settings store (getBasicCredentials req) env).fst,
     (checkauth settings store (getBasicCredentials req) env).snd, none)
  else
    let v := validateRequestSessionInfo settings store (getRequestSessionInfo req) env.now
    if v.fst.success = false then
      (failureResult v.fst.error, v.snd, none)
    else if req.queryMode = some "init" then
      (init settings, v.snd, none)
    else if req.queryMode = some "file" ∧ req.queryType = some "catalog" then
      ((file (req.queryFilename.getD "") req.rawBody env.nowFormatted).fst, v.snd,
       (file (req.queryFilename.getD "") req.rawBody env.nowFormatted).snd)
    else if req.queryMode = some "file" ∧ req.queryType = some "report" then
      ((fileReport (req.queryFilename.getD "") req.rawBody).fst, v.snd,
       (fileReport (req.queryFilename.getD "") req.rawBody).snd)
    else if req.queryMode = some "import" then
      (stepImport (req.queryFilename.getD ""), v.snd, none)
    else
      (failureResult (some ("Type \x27" ++ jsStr req.queryType ++ "\x27 and mode \x27" ++
         jsStr req.queryMode ++ "\x27 are not supported.")), v.snd, none)

/-- Example settings for concrete instantiations. -/
def settingsEx : Settings :=
  { username := "u", password := "p", zip := false, fileSizeLimit := 9437184,
    sessionDurationSeconds := 3600, sessionIdCookieName := "sessionId",
    csrfProtection := false, csrfTokenName := "csrfToken",
    sessionsStoragePath := "/settings/your-site-name/exchange1cSessions" }

/-- Example effect inputs for concrete instantiations. -/
def envEx : Env :=
  { newSessionId := "sid-1", newCsrfToken := "tok-1", now := 1000,
    nowFormatted := "2026-01-01_00-00-00-000+0000" }

end Exchange1c

namespace Exchange1c

/-- A store holding one expired session document. -/
def storeExpiredEx : Store :=
  [("s1", { sessionId := "s1", csrfToken := "t1", expirationTimestamp := some 500 })]

/-- A store holding one active (not yet expired, at time 1000) session document. -/
def storeActiveEx : Store :=
  [("s1", { sessionId := "s1", csrfToken := "t1", expirationTimestamp := some 5000 })]

/-- C4: `loadSession` never returns a session at or past its expiration: a
session is only returned when `now` is strictly before its
`expirationTimestamp`; an empty session id or an unknown id yields `none`
with the store untouched; and an expired document is deleted from the store
by the lookup before `none` is returned. -/
theorem loadSession_active_only (store : Store) (sessionId : String) (now : Nat) :
    (∀ s, (loadSession store sessionId now).fst = some s → now < s.expirationTimestamp) ∧
    (sessionId = "" → loadSession store sessionId now = (none, store)) ∧
    (sessionId ≠ "" → store.lookup sessionId = none →
      loadSession store sessionId now = (none, store)) ∧
    (∀ stored e, sessionId ≠ "" → store.lookup sessionId = some stored →
      stored.expirationTimestamp = some e → e ≤ now →
      loadSession store sessionId now = (none, storeDelete store sessionId)) := by
  refine ⟨?_, ?_, ?_, ?_⟩
  · intro s hs
    by_cases h1 : sessionId = ""
    · simp [loadSession, h1] at hs
    · rcases h2 : store.lookup sessionId with _ | stored
      · simp [loadSession, h1, h2] at hs
      · rcases h3 : stored.expirationTimestamp with _ | e
        · simp [loadSession, h1, h2, h3] at hs
        · by_cases h4 : e ≤ now
          · simp [loadSession, h1, h2, h3, h4] at hs
          · simp [loadSession, h1, h2, h3, h4] at hs
            subst hs
            simp
            omega
  · intro h
    simp [loadSession, h]
  · intro h1 h2
    simp [loadSession, h1, h2]
  · intro stored e h1 h2 h3 h4
    simp [loadSession, h1, h2, h3, h4]

/-- C4 witness: at time 1000, the expired document (expiry 500) under key
`s1` is not returned and is deleted from the store by the lookup. -/
theorem loadSession_active_only_witness :
    (("s1" : String) ≠ "" ∧
     storeExpiredEx.lookup "s1" =
       some { sessionId := "s1", csrfToken := "t1", expirationTimestamp := some 500 } ∧
     (500 : Nat) ≤ 1000) ∧
    loadSession storeExpiredEx "s1" 1000 = (none, storeDelete storeExpiredEx "s1") :=
  ⟨⟨by decide, rfl, by decide⟩,
   (loadSession_active_only storeExpiredEx "s1" 1000).2.2.2
     { sessionId := "s1", csrfToken := "t1", expirationTimestamp := some 500 } 500
     (by decide) rfl rfl (by decide)⟩

/-- C5: the csrf comparison is enforced exactly when `csrfProtection` is
enabled: with protection on, a loaded active session whose stored token
differs from the request token yields the invalid result with error
"Invalid CSRF token." (and a matching token validates); with protection off
the request validates whatever the token. -/
theorem validate_csrf_iff (settings : Settings) (store : Store)
    (info : RequestSessionInfo) (now : Nat) (s : ExchangeSession)
    (hload : (loadSession store info.sessionId now).fst = some s) :
    (settings.csrfProtection = true → info.csrfToken ≠ s.csrfToken →
      (validateRequestSessionInfo settings store info now).fst =
        { success := false, error := some "Invalid CSRF token." }) ∧
    (settings.csrfProtection = false →
      (validateRequestSessionInfo settings store info now).fst =
        { success := true, error := none }) ∧
    (settings.csrfProtection = true → info.csrfToken = s.csrfToken →
      (validateRequestSessionInfo settings store info now).fst =
        { success := true, error := none }) := by
  refine ⟨?_, ?_, ?_⟩
  · intro hcsrf hne
    simp [validateRequestSessionInfo, hload, hcsrf, hne]
  · intro hcsrf
    simp [validateRequestSessionInfo, hload, hcsrf]
  · intro hcsrf heq
    simp [validateRequestSessionInfo, hload, hcsrf, heq]

/-- C5 witness: with `csrfProtection` off (the example settings), an empty
request token validates against the active stored session. -/
theorem validate_csrf_iff_witness :
    ((loadSession storeActiveEx "s1" 1000).fst =
       some { sessionId := "s1", csrfToken := "t1", expirationTimestamp := 5000 } ∧
     settingsEx.csrfProtection = false) ∧
    (validateRequestSessionInfo settingsEx storeActiveEx
        { sessionId := "s1", csrfToken := "" } 1000).fst =
      { success := true, error := none } :=
  ⟨⟨rfl, rfl⟩,
   (validate_csrf_iff settingsEx storeActiveEx { sessionId := "s1", csrfToken := "" } 1000
     { sessionId := "s1", csrfToken := "t1", expirationTimestamp := 5000 } rfl).2.1 rfl⟩

end Exchange1c

namespace Exchange1c

/-- C2 counterexample: on a request whose session id is unknown, the
validator's error message reads "Use 'mode=checkauth' ...", which is not the
message "Use 'checkauth' ..." stated by the claim. -/
theorem validate_message_counterexample :
    (validateRequestSessionInfo settingsEx []
        { sessionId := "unknown", csrfToken := "" } 0).fst.error =
      some "No active session found. Use \x27mode=checkauth\x27 to start a new session." ∧
    (some "No active session found. Use \x27mode=checkauth\x27 to start a new session." :
        Option String) ≠
      some "No active session found. Use \x27checkauth\x27 to start a new session." :=
  ⟨rfl, by decide⟩

/-- C2 (amended): for every request whose session id does not resolve to an
active stored session, validation returns invalid with exactly the error
"No active session found. Use 'mode=checkauth' to start a new session.", and
the dispatcher returns a failure result carrying that message. -/
theorem validate_no_active_session (settings : Settings) (store : Store) (env : Env)
    (req : Request)
    (hty : req.queryType = some "catalog" ∨ req.queryType = some "report")
    (hmode : req.queryMode ≠ some "checkauth")
    (hload : (loadSession store (getRequestSessionInfo req).sessionId env.now).fst = none) :
    (validateRequestSessionInfo settings store (getRequestSessionInfo req) env.now).fst =
      { success := false,
        error := some "No active session found. Use \x27mode=checkauth\x27 to start a new session." } ∧
    (main settings store env req).fst =
      "failure\nNo active session found. Use \x27mode=checkauth\x27 to start a new session." := by
  have h1 : (validateRequestSessionInfo settings store (getRequestSessionInfo req) env.now).fst =
      { success := false,
        error := some "No active session found. Use \x27mode=checkauth\x27 to start a new session." } := by
    simp [validateRequestSessionInfo, hload]
  have hty2 : ¬(req.queryType ≠ some "catalog" ∧ req.queryType ≠ some "report") := by
    rcases hty with h | h <;> simp [h]
  refine ⟨h1, ?_⟩
  simp [main, hty2, hmode, h1, failureResult, result]

/-- A request carrying `type=catalog&mode=init` and no cookie. -/
def reqInitEx : Request :=
  { queryType := some "catalog", queryMode := some "init", queryFilename := none,
    querySessid := none, cookieSessionId := none, authName := none, authPass := none,
    rawBody := none }

/-- C2 witness: the `type=catalog&mode=init` request with no cookie against
an empty store is rejected with the no-active-session failure. -/
theorem validate_no_active_session_witness :
    ((reqInitEx.queryType = some "catalog" ∨ reqInitEx.queryType = some "report") ∧
     reqInitEx.queryMode ≠ some "checkauth" ∧
     (loadSession [] (getRequestSessionInfo reqInitEx).sessionId envEx.now).fst = none) ∧
    (main settingsEx [] envEx reqInitEx).fst =
      "failure\nNo active session found. Use \x27mode=checkauth\x27 to start a new session." :=
  ⟨⟨Or.inl rfl, by decide, rfl⟩,
   (validate_no_active_session settingsEx [] envEx reqInitEx (Or.inl rfl) (by decide) rfl).2⟩

/-- C6: for every credentials pair that does not exactly equal the
configured username and password, `checkauth` returns the two-line result
"failure\nUnauthorized" and the session store is unchanged. -/
theorem checkauth_unauthorized (settings : Settings) (store : Store)
    (credentials : BasicCredentials) (env : Env)
    (h : credentials.username ≠ settings.username ∨ credentials.password ≠ settings.password) :
    checkauth settings store credentials env = ("failure\nUnauthorized", store) := by
  unfold checkauth
  rw [if_pos h]
  rfl

/-- C6 witness: a wrong username (empty password as well) is rejected and
the empty store stays empty. -/
theorem checkauth_unauthorized_witness :
    (("wrong" : String) ≠ settingsEx.username) ∧
    checkauth settingsEx [] { username := "wrong", password := "" } envEx =
      ("failure\nUnauthorized", []) :=
  ⟨by decide,
   checkauth_unauthorized settingsEx [] { username := "wrong", password := "" } envEx
     (Or.inl (by decide))⟩

/-- C9: on matching credentials, the `checkauth` response is exactly the
five lines "success", the configured cookie name, the fresh session id,
"<csrfTokenName>=<csrfToken>" and "timestamp=<epoch seconds>", joined by
newlines, with no leading space before `timestamp` and an integer number of
epoch seconds as its value. -/
theorem checkauth_success_result (settings : Settings) (store : Store)
    (credentials : BasicCredentials) (env : Env)
    (hu : credentials.username = settings.username)
    (hp : credentials.password = settings.password) :
    (checkauth settings store credentials env).fst =
      "success" ++ "\n" ++ settings.sessionIdCookieName ++ "\n" ++ env.newSessionId ++
        "\n" ++ settings.csrfTokenName ++ "=" ++ env.newCsrfToken ++ "\n" ++
        "timestamp=" ++ toString env.now := by
  unfold checkauth
  rw [if_neg (by simp [hu, hp])]
  show result _ = _
  simp only [result, String.append_assoc]

/-- C9 witness: the concrete response for the example settings and effect
inputs. -/
theorem checkauth_success_result_witness :
    (("u" : String) = settingsEx.username ∧ ("p" : String) = settingsEx.password) ∧
    (checkauth settingsEx [] { username := "u", password := "p" } envEx).fst =
      "success\nsessionId\nsid-1\ncsrfToken=tok-1\ntimestamp=1000" :=
  ⟨⟨rfl, rfl⟩,
   (checkauth_success_result settingsEx [] { username := "u", password := "p" } envEx
      rfl rfl).trans (by decide)⟩

end Exchange1c

namespace Exchange1c

/-- C3: with a supported type, mode `checkauth` is dispatched directly to
`checkauth` (no session validation, the store changes only through
`checkauth` itself), and every other mode first runs session validation on
the extracted cookie session id and query csrf token; an invalid validation
short-circuits the dispatcher to the validator's failure message, so no
init/file/import step runs and no storage write occurs. -/
theorem main_checkauth_only_unvalidated (settings : Settings) (store : Store)
    (env : Env) (req : Request)
    (hty : req.queryType = some "catalog" ∨ req.queryType = some "report") :
    (req.queryMode = some "checkauth" →
      main settings store env req =
        ((checkauth settings store (getBasicCredentials req) env).fst,
         (checkauth settings store (getBasicCredentials req) env).snd, none)) ∧
    (req.queryMode ≠ some "checkauth" →
      (validateRequestSessionInfo settings store (getRequestSessionInfo req)
          env.now).fst.success = false →
      main settings store env req =
        (failureResult
           (validateRequestSessionInfo settings store (getRequestSessionInfo req)
             env.now).fst.error,
         (validateRequestSessionInfo settings store (getRequestSessionInfo req) env.now).snd,
         none)) := by
  have hty2 : ¬(req.queryType ≠ some "catalog" ∧ req.queryType ≠ some "report") := by
    rcases hty with h | h <;> simp [h]
  constructor
  · intro hm
    simp [main, hty2, hm]
  · intro hm hv
    simp [main, hty2, hm, hv]

/-- A `type=catalog&mode=checkauth` request with basic auth credentials. -/
def reqCheckauthEx : Request :=
  { queryType := some "catalog", queryMode := some "checkauth", queryFilename := none,
    querySessid := none, cookieSessionId := none, authName := some "u",
    authPass := some "p", rawBody := none }

/-- C3 witness: the `checkauth` request is dispatched straight to
`checkauth` even though the store holds no session. -/
theorem main_checkauth_only_unvalidated_witness :
    (reqCheckauthEx.queryType = some "catalog" ∨ reqCheckauthEx.queryType = some "report") ∧
    main settingsEx [] envEx reqCheckauthEx =
      ((checkauth settingsEx [] (getBasicCredentials reqCheckauthEx) envEx).fst,
       (checkauth settingsEx [] (getBasicCredentials reqCheckauthEx) envEx).snd, none) :=
  ⟨Or.inl rfl,
   (main_checkauth_only_unvalidated settingsEx [] envEx reqCheckauthEx (Or.inl rfl)).1 rfl⟩

/-- C7: routing of file-mode writes with a non-empty filename and a present
body. An `import_files`-prefixed filename is stored under its directory
name with its base filename and no timestamp (for catalog in bucket
1c-exchange-files, for report in 1c-exchange-report); any other catalog
filename is stored at the namespace root under the generation timestamp
joined to the filename with an underscore; any other report filename is
stored at the namespace root with no timestamp prefix. -/
theorem file_routing (filename : String) (body : List Nat) (ts : String)
    (hfn : filename ≠ "") :
    (jsStartsWith filename "import_files" = true →
      file filename (some body) ts =
        ("success",
         some { bucketName := "1c-exchange-files", folder := posixDirname filename,
                timestamp := "", fileName := posixBasename filename, data := body }) ∧
      fileReport filename (some body) =
        ("success",
         some { bucketName := "1c-exchange-report", folder := posixDirname filename,
                timestamp := "", fileName := posixBasename filename, data := body })) ∧
    (jsStartsWith filename "import_files" = false →
      file filename (some body) ts =
        ("success",
         some { bucketName := "1c-exchange-catalog", folder := "",
                timestamp := ts, fileName := filename, data := body }) ∧
      fileReport filename (some body) =
        ("success",
         some { bucketName := "1c-exchange-report", folder := "",
                timestamp := "", fileName := filename, data := body })) ∧
    (ts ≠ "" → saveKey ts filename = ts ++ "_" ++ filename) ∧
    saveKey "" (posixBasename filename) = posixBasename filename := by
  refine ⟨?_, ?_, ?_, ?_⟩
  · intro h
    constructor <;> simp [file, fileReport, hfn, h]
  · intro h
    constructor <;> simp [file, fileReport, hfn, h]
  · intro h
    simp [saveKey, h]
  · simp [saveKey]

/-- C7 witness: the scenario filename `import_files/orders/order1.xml` is
written to bucket 1c-exchange-files under folder `import_files/orders` as
`order1.xml` with no timestamp. -/
theorem file_routing_witness :
    (("import_files/orders/order1.xml" : String) ≠ "" ∧
     jsStartsWith "import_files/orders/order1.xml" "import_files" = true) ∧
    file "import_files/orders/order1.xml" (some [1, 2]) "2026-01-01_00-00-00-000+0000" =
      ("success",
       some { bucketName := "1c-exchange-files", folder := "import_files/orders",
              timestamp := "", fileName := "order1.xml", data := [1, 2] }) :=
  ⟨⟨by decide, by decide⟩,
   (((file_routing "import_files/orders/order1.xml" [1, 2] "2026-01-01_00-00-00-000+0000"
       (by decide)).1 (by decide)).1).trans (by decide)⟩

/-- C8: for both file steps, an empty filename yields the failure result
"Filename is empty." with no storage write, and a non-empty filename with
an absent body yields the failure result "Request body is undefined" with
no storage write. -/
theorem file_error_results (filename : String) (body : Option (List Nat)) (ts : String)
    (hfn : filename ≠ "") :
    (file "" body ts = ("failure\nFilename is empty.", none) ∧
     fileReport "" body = ("failure\nFilename is empty.", none)) ∧
    (file filename none ts = ("failure\nRequest body is undefined", none) ∧
     fileReport filename none = ("failure\nRequest body is undefined", none)) := by
  refine ⟨⟨rfl, rfl⟩, ?_, ?_⟩
  · unfold file
    rw [if_neg hfn]
    rfl
  · unfold fileReport
    rw [if_neg hfn]
    rfl

/-- C8 witness: the two failures at the concrete filename `a.xml` and an
absent body, and at the empty filename. -/
theorem file_error_results_witness :
    (("a.xml" : String) ≠ "") ∧
    file "" (some [7]) "T" = ("failure\nFilename is empty.", none) ∧
    file "a.xml" none "T" = ("failure\nRequest body is undefined", none) :=
  ⟨by decide,
   (file_error_results "a.xml" (some [7]) "T" (by decide)).1.1,
   (file_error_results "a.xml" (some [7]) "T" (by decide)).2.1⟩

/-- C10: the destination bucket depends on both the exchange type and the
filename shape: the catalog step writes `import_files`-prefixed filenames
to 1c-exchange-files and every other filename to 1c-exchange-catalog, while
the report step writes every filename to 1c-exchange-report. -/
theorem file_bucket_by_type_and_shape (filename : String) (body : List Nat) (ts : String)
    (hfn : filename ≠ "") :
    ((file filename (some body) ts).snd.map StorageWrite.bucketName =
      some (if jsStartsWith filename "import_files" then "1c-exchange-files"
            else "1c-exchange-catalog")) ∧
    ((fileReport filename (some body)).snd.map StorageWrite.bucketName =
      some "1c-exchange-report") := by
  constructor
  · by_cases h : jsStartsWith filename "import_files" = true
    · simp [file, hfn, h]
    · simp at h
      simp [file, hfn, h]
  · by_cases h : jsStartsWith filename "import_files" = true
    · simp [fileReport, hfn, h]
    · simp at h
      simp [fileReport, hfn, h]

/-- C10 witness: `report1.xml` goes to 1c-exchange-catalog from the catalog
step and to 1c-exchange-report from the report step. -/
theorem file_bucket_by_type_and_shape_witness :
    (("report1.xml" : String) ≠ "") ∧
    (file "report1.xml" (some [3]) "T").snd.map StorageWrite.bucketName =
      some "1c-exchange-catalog" ∧
    (fileReport "report1.xml" (some [3])).snd.map StorageWrite.bucketName =
      some "1c-exchange-report" :=
  ⟨by decide,
   ((file_bucket_by_type_and_shape "report1.xml" [3] "T" (by decide)).1).trans (by decide),
   (file_bucket_by_type_and_shape "report1.xml" [3] "T" (by decide)).2⟩

/-- Example settings whose configured session duration differs from the
hard-coded class field. -/
def settingsDur7200 : Settings := { settingsEx with sessionDurationSeconds := 7200 }

/-- C1: refuted (code bug). With `settings.sessionDurationSeconds = 7200`,
a successful `checkauth` at time 1000 persists a session expiring at
`1000 + 3600 = 4600` — the hard-coded `exchangeSessionDurationSeconds` —
and not at `1000 + 7200` as the claim (and the source's own doc comment on
`ExchangeSession.expirationTimestamp`) requires. -/
theorem checkauth_duration_ignores_settings :
    (checkauth settingsDur7200 [] { username := "u", password := "p" } envEx).snd.lookup
        "sid-1" =
      some { sessionId := "sid-1", csrfToken := "tok-1",
             expirationTimestamp := some 4600 } ∧
    envEx.now + exchangeSessionDurationSeconds = 4600 ∧
    (4600 : Nat) ≠ envEx.now + settingsDur7200.sessionDurationSeconds :=
  ⟨rfl, rfl, by decide⟩

end Exchange1c
